import Mathlib

/-!
# PeerFact verdict engine: shallow embedding and verification

This file embeds the reputation-weighted consensus core of the PeerFact
backend (`src/backend/server.py`) in Lean 4 and proves properties of it.

Modelling conventions:
* Python floats are modelled as exact rationals (`ℚ`), with Python's
  `round(x, 3)` modelled as round-half-to-even at three decimal places.
* MongoDB collections are modelled as Lean lists in insertion order;
  `find_one` is `List.find?`, `find(...).to_list(n)` is filter-then-`take n`,
  `update_one` with `$inc` updates the first matching document, and
  `insert_one` appends.
* `uuid.uuid4()` and `datetime.utcnow()` are nondeterministic inputs of the
  HTTP handlers, so they are passed to the embedded handlers as parameters.
* External collaborators (the AI analysis result of `try_ai_analyze`) are
  likewise passed in as an opaque parameter; `try_ai_analyze` returns every
  annotation key on all of its code paths, so the `.get(key, default)`
  reads in `create_claim` always see a present key.
-/

namespace PeerFact

/-- A verification stance, the closed set validated by
`Literal['support', 'refute', 'unclear']` in `VerificationCreate`. -/
inductive Stance where
  | support
  | refute
  | unclear
  deriving DecidableEq, Repr

/-- A document of the `users` collection (fields the core reads). -/
structure UserDoc where
  id : String
  username : String
  reputation : ℚ
  deriving DecidableEq, Repr

/-- The opaque annotation produced by the external `try_ai_analyze`
collaborator.  All keys are present on every return path of
`try_ai_analyze`, so the defaults in `create_claim` never fire. -/
structure AiResult where
  summary : String
  label : String
  confidence : ℚ
  reasoning : String
  entities : List String
  bias_score : ℚ
  stance : String
  evidence_quality : String
  temporal_relevance : ℚ
  contradiction_flags : List String
  verification_suggestions : List String
  sources_analysis : List String
  deriving DecidableEq, Repr

/-- A document of the `claims` collection. -/
structure ClaimDoc where
  id : String
  author_id : String
  text : String
  link : Option String
  media_base64 : Option String
  created_at : ℕ
  ai : AiResult
  support_count : ℕ
  refute_count : ℕ
  unclear_count : ℕ
  confidence : ℚ
  deriving DecidableEq, Repr

/-- A document of the `verifications` collection. -/
structure VerifDoc where
  id : String
  claim_id : String
  author_id : String
  stance : Stance
  source_url : Option String
  explanation : Option String
  created_at : ℕ
  deriving DecidableEq, Repr

/-- The mutable database state read and written by the core. -/
structure DB where
  users : List UserDoc
  claims : List ClaimDoc
  verifications : List VerifDoc
  deriving DecidableEq, Repr

/-- `get_user`: `db.users.find_one({"id": user_id})`. -/
def get_user (db : DB) (user_id : String) : Option UserDoc :=
  db.users.find? (fun u => u.id == user_id)

/-- `get_user_rep`: current reputation, defaulting to `1.0` when the user
cannot be resolved. -/
def get_user_rep (db : DB) (user_id : String) : ℚ :=
  match get_user db user_id with
  | none => 1
  | some u => u.reputation

/-- The per-stance reputation-weighted sums accumulated by `compute_verdict`
(`weights = {"support": 0.0, "refute": 0.0, "unclear": 0.0}`). -/
structure Weights where
  support : ℚ
  refute : ℚ
  unclear : ℚ
  deriving DecidableEq, Repr

/-- The per-stance raw counts accumulated by `compute_verdict`. -/
structure Counts where
  support : ℕ
  refute : ℕ
  unclear : ℕ
  deriving DecidableEq, Repr

/-- Dictionary lookup `weights[stance]`. -/
def Weights.get (w : Weights) : Stance → ℚ
  | .support => w.support
  | .refute => w.refute
  | .unclear => w.unclear

/-- One iteration of the accumulation loop in `compute_verdict`:
`weights[v["stance"]] += rep; counts[v["stance"]] += 1`. -/
def step (db : DB) (wc : Weights × Counts) (v : VerifDoc) : Weights × Counts :=
  let rep := get_user_rep db v.author_id
  match v.stance with
  | .support => ({ wc.1 with support := wc.1.support + rep },
                 { wc.2 with support := wc.2.support + 1 })
  | .refute => ({ wc.1 with refute := wc.1.refute + rep },
                { wc.2 with refute := wc.2.refute + 1 })
  | .unclear => ({ wc.1 with unclear := wc.1.unclear + rep },
                 { wc.2 with unclear := wc.2.unclear + 1 })

/-- `max(weights, key=weights.get)`: CPython's `max` walks the dict keys in
insertion order (`support`, `refute`, `unclear`) and replaces the current
best only on a strictly greater value, so the first key attaining the
maximum wins. -/
def label_key (w : Weights) : Stance :=
  let best1 : Stance × ℚ := (.support, w.support)
  let best2 : Stance × ℚ := if w.refute > best1.2 then (.refute, w.refute) else best1
  if w.unclear > best2.2 then .unclear else best2.1

/-- `sum(weights.values()) or 1.0`: the total weight, defaulted to `1.0`
when the sum is (falsy, i.e.) zero. -/
def total_weight (w : Weights) : ℚ :=
  let t := w.support + w.refute + w.unclear
  if t = 0 then 1 else t

/-- Round-half-to-even to an integer, the rounding mode of Python's
built-in `round`. -/
def roundHalfEven (q : ℚ) : ℤ :=
  let f := ⌊q⌋
  let r := q - f
  if r < 1/2 then f
  else if 1/2 < r then f + 1
  else if f % 2 = 0 then f else f + 1

/-- Python's `round(q, 3)`. -/
def round3 (q : ℚ) : ℚ :=
  (roundHalfEven (1000 * q) : ℚ) / 1000

/-- `label_map = {"support": "Mostly True", "refute": "Mostly False",
"unclear": "Unclear"}`. -/
def label_map : Stance → String
  | .support => "Mostly True"
  | .refute => "Mostly False"
  | .unclear => "Unclear"

/-- The verdict dictionary returned by `compute_verdict`. -/
structure Verdict where
  label : String
  confidence : ℚ
  support : ℕ
  refute : ℕ
  unclear : ℕ
  deriving DecidableEq, Repr

/-- The verification records `compute_verdict` reads:
`db.verifications.find({"claim_id": claim_id}).to_list(1000)` — all records
of the claim in insertion order, capped at the first 1000. -/
def fetch_verifs (db : DB) (claim_id : String) : List VerifDoc :=
  (db.verifications.filter (fun v => v.claim_id == claim_id)).take 1000

/-- `compute_verdict`: weighted stance and confidence from verifications. -/
def compute_verdict (db : DB) (claim_id : String) : Verdict :=
  let verifs := fetch_verifs db claim_id
  if verifs.isEmpty then
    { label := "Unverified", confidence := 0, support := 0, refute := 0, unclear := 0 }
  else
    let wc := verifs.foldl (step db) (⟨0, 0, 0⟩, ⟨0, 0, 0⟩)
    let lk := label_key wc.1
    let confidence := wc.1.get lk / total_weight wc.1
    { label := label_map lk
      confidence := round3 confidence
      support := wc.2.support
      refute := wc.2.refute
      unclear := wc.2.unclear }

/-- An HTTP error raised by a handler (`HTTPException`). -/
inductive ApiError where
  | notFound (detail : String)
  | badRequest (detail : String)
  deriving DecidableEq, Repr

/-- The request body of `POST /api/claims/{claim_id}/verify`
(`VerificationCreate`). -/
structure VerificationCreate where
  author_id : String
  stance : Stance
  source_url : Option String
  explanation : Option String
  deriving DecidableEq, Repr

/-- The request body of `POST /api/claims` (`ClaimCreate`). -/
structure ClaimCreate where
  author_id : String
  text : String
  link : Option String
  media_base64 : Option String
  deriving DecidableEq, Repr

/-- `db.users.update_one({"id": uid}, {"$inc": {"reputation": delta}})`:
increment the reputation of the first matching user document, a no-op when
none matches. -/
def inc_reputation : List UserDoc → String → ℚ → List UserDoc
  | [], _, _ => []
  | u :: rest, uid, delta =>
    if u.id == uid then { u with reputation := u.reputation + delta } :: rest
    else u :: inc_reputation rest uid delta

/-- `align_map.get(label, "unclear")` with
`align_map = {"Mostly True": "support", "Mostly False": "refute",
"Unclear": "unclear"}`. -/
def align_map_get (label : String) : Stance :=
  if label == "Mostly True" then .support
  else if label == "Mostly False" then .refute
  else if label == "Unclear" then .unclear
  else .unclear

/-- `add_verification` (`POST /api/claims/{claim_id}/verify`).  `vid` and
`now` model the generated `uuid.uuid4()` and `datetime.utcnow()`;
`current_user` is the resolved JWT user, `none` on the unauthenticated
path.  Returns the state after the handler together with its response. -/
def add_verification (db : DB) (claim_id : String) (body : VerificationCreate)
    (current_user : Option UserDoc) (vid : String) (now : ℕ) :
    DB × Except ApiError VerifDoc :=
  match db.claims.find? (fun c => c.id == claim_id) with
  | none => (db, .error (.notFound "Claim not found"))
  | some _ =>
    let author? : Except ApiError String :=
      match current_user with
      | some cu => .ok cu.id
      | none =>
        match get_user db body.author_id with
        | none => .error (.badRequest "Invalid author_id")
        | some _ => .ok body.author_id
    match author? with
    | .error e => (db, .error e)
    | .ok author_id =>
      let doc : VerifDoc :=
        { id := vid, claim_id := claim_id, author_id := author_id,
          stance := body.stance, source_url := body.source_url,
          explanation := body.explanation, created_at := now }
      let db1 : DB := { db with verifications := db.verifications ++ [doc] }
      let current := compute_verdict db1 claim_id
      let align_key := align_map_get current.label
      let db2 : DB :=
        if body.stance = align_key then
          { db1 with users := inc_reputation db1.users author_id (1/10) }
        else
          { db1 with users := inc_reputation db1.users author_id (-(1/20)) }
      (db2, .ok doc)

/-- `create_claim` (`POST /api/claims`).  `cid`/`now` model the generated
uuid and timestamp; `ai` is the result of the external `try_ai_analyze`
call. -/
def create_claim (db : DB) (body : ClaimCreate) (current_user : Option UserDoc)
    (cid : String) (now : ℕ) (ai : AiResult) :
    DB × Except ApiError ClaimDoc :=
  let author? : Except ApiError String :=
    match current_user with
    | some cu => .ok cu.id
    | none =>
      match get_user db body.author_id with
      | none => .error (.badRequest "Invalid author_id")
      | some _ => .ok body.author_id
  match author? with
  | .error e => (db, .error e)
  | .ok author_id =>
    let doc : ClaimDoc :=
      { id := cid, author_id := author_id, text := body.text,
        link := body.link, media_base64 := body.media_base64,
        created_at := now, ai := ai,
        support_count := 0, refute_count := 0, unclear_count := 0,
        confidence := 0 }
    ({ db with claims := db.claims ++ [doc] }, .ok doc)

/-- Stable insertion step for Mongo's `.sort("created_at", -1)`
(descending by creation time). -/
def insertByCreatedDesc {α : Type} (created : α → ℕ) (x : α) :
    List α → List α
  | [] => [x]
  | y :: rest =>
    if created y < created x then x :: y :: rest
    else y :: insertByCreatedDesc created x rest

/-- Mongo's `.sort("created_at", -1)`: sort descending by `created_at`. -/
def sortByCreatedDesc {α : Type} (created : α → ℕ) (l : List α) : List α :=
  l.foldr (insertByCreatedDesc created) []

/-- The response of `GET /api/claims/{claim_id}`. -/
structure ClaimDetail where
  claim : ClaimDoc
  verifications : List VerifDoc
  verdict : Verdict
  deriving DecidableEq, Repr

/-- `get_claim` (`GET /api/claims/{claim_id}`): the stored claim document,
its verifications sorted newest first (capped at 1000), and a freshly
computed verdict. -/
def get_claim (db : DB) (claim_id : String) : Except ApiError ClaimDetail :=
  match db.claims.find? (fun c => c.id == claim_id) with
  | none => .error (.notFound "Claim not found")
  | some claim =>
    let verifs :=
      (sortByCreatedDesc VerifDoc.created_at
        (db.verifications.filter (fun v => v.claim_id == claim_id))).take 1000
    .ok { claim := claim, verifications := verifs,
          verdict := compute_verdict db claim_id }

/-- `list_claims` (`GET /api/claims`): the first 100 claims, newest first,
each enriched with freshly computed verdict counts and confidence. -/
def list_claims (db : DB) : List ClaimDoc :=
  let claims := (sortByCreatedDesc ClaimDoc.created_at db.claims).take 100
  claims.map (fun c =>
    let verdict := compute_verdict db c.id
    { c with support_count := verdict.support, refute_count := verdict.refute,
             unclear_count := verdict.unclear, confidence := verdict.confidence })

/-- `claim_verdict` (`GET /api/claims/{claim_id}/verdict`). -/
def claim_verdict (db : DB) (claim_id : String) : Except ApiError Verdict :=
  match db.claims.find? (fun c => c.id == claim_id) with
  | none => .error (.notFound "Claim not found")
  | some _ => .ok (compute_verdict db claim_id)

/-!
## Closed forms for the accumulation loop

The spec describes the accumulation of step 4 of `compute_verdict`
declaratively (per-stance weighted sums and raw counts); the following
definitions state those closed forms and the lemmas relate them to the
`foldl` the code performs.
-/

/-- The reputation-weighted sum a stance accumulates over a list of
verifications (spec step 4, `weight[stance] += reputation`). -/
def wsum (db : DB) (l : List VerifDoc) (st : Stance) : ℚ :=
  ((l.filter (fun v => v.stance == st)).map (fun v => get_user_rep db v.author_id)).sum

/-- The raw count a stance accumulates over a list of verifications
(spec step 4, `count[stance] += 1`). -/
def cnt (l : List VerifDoc) (st : Stance) : ℕ :=
  (l.filter (fun v => v.stance == st)).length

/-- The per-stance weights of a verification list, as a `Weights` record. -/
def stance_weights (db : DB) (l : List VerifDoc) : Weights :=
  ⟨wsum db l .support, wsum db l .refute, wsum db l .unclear⟩

theorem wsum_cons (db : DB) (v : VerifDoc) (l : List VerifDoc) (st : Stance) :
    wsum db (v :: l) st =
      (if v.stance = st then get_user_rep db v.author_id else 0) + wsum db l st := by
  by_cases h : v.stance = st <;> simp [wsum, List.filter_cons, h]

theorem cnt_cons (v : VerifDoc) (l : List VerifDoc) (st : Stance) :
    cnt (v :: l) st = (if v.stance = st then 1 else 0) + cnt l st := by
  by_cases h : v.stance = st <;> simp [cnt, List.filter_cons, h] <;> omega

/-- The accumulation loop of `compute_verdict` computes exactly the
per-stance weighted sums and counts of the spec's step 4. -/
theorem foldl_step_eq (db : DB) (l : List VerifDoc) (w : Weights) (c : Counts) :
    l.foldl (step db) (w, c) =
      (⟨w.support + wsum db l .support, w.refute + wsum db l .refute,
        w.unclear + wsum db l .unclear⟩,
       ⟨c.support + cnt l .support, c.refute + cnt l .refute,
        c.unclear + cnt l .unclear⟩) := by
  induction l generalizing w c with
  | nil => simp [wsum, cnt]
  | cons v rest ih =>
    rw [List.foldl_cons, step]
    cases hst : v.stance <;>
      simp only [ih, wsum_cons, cnt_cons, hst, if_pos rfl, reduceCtorEq, if_neg,
        Weights.mk.injEq, Counts.mk.injEq, Prod.mk.injEq, if_true, if_false] <;>
      refine ⟨⟨by ring, by ring, by ring⟩, by omega, by omega, by omega⟩

/-- `compute_verdict` on a claim with no verification records. -/
theorem compute_verdict_empty (db : DB) (claim_id : String)
    (h : db.verifications.filter (fun v => v.claim_id == claim_id) = []) :
    compute_verdict db claim_id =
      { label := "Unverified", confidence := 0, support := 0, refute := 0, unclear := 0 } := by
  simp [compute_verdict, fetch_verifs, h]

/-- Closed form of `compute_verdict` on a claim with at least one
verification record: the winning stance of the per-stance weighted sums of
the fetched records, its weight over the total, and the per-stance
counts. -/
theorem compute_verdict_eq (db : DB) (claim_id : String)
    (h : fetch_verifs db claim_id ≠ []) :
    compute_verdict db claim_id =
      { label := label_map (label_key (stance_weights db (fetch_verifs db claim_id)))
        confidence := round3
          ((stance_weights db (fetch_verifs db claim_id)).get
              (label_key (stance_weights db (fetch_verifs db claim_id))) /
            total_weight (stance_weights db (fetch_verifs db claim_id)))
        support := cnt (fetch_verifs db claim_id) .support
        refute := cnt (fetch_verifs db claim_id) .refute
        unclear := cnt (fetch_verifs db claim_id) .unclear } := by
  rw [compute_verdict]
  rw [if_neg (by simpa [List.isEmpty_iff] using h)]
  rw [foldl_step_eq]
  simp [stance_weights]

/-!
## Tie-breaking and the winning stance
-/

/-- The tie-break rule in the words of the spec: among the stances attaining
the maximum accumulated weight, pick the first in the fixed priority order
support > refute > unclear. -/
def priority_pick (w : Weights) : Stance :=
  let m := max w.support (max w.refute w.unclear)
  if w.support = m then .support
  else if w.refute = m then .refute
  else .unclear

/-- The stance selected by `max(weights, key=weights.get)` carries the
maximum accumulated weight. -/
theorem label_key_is_max (w : Weights) (st : Stance) :
    w.get st ≤ w.get (label_key w) := by
  cases st <;>
    · simp only [label_key, Weights.get]
      split_ifs <;> simp_all [Weights.get] <;> linarith

/-- `max(weights, key=weights.get)` resolves exact ties by the fixed
priority order support > refute > unclear. -/
theorem label_key_eq_priority_pick (w : Weights) :
    label_key w = priority_pick w := by
  rcases lt_or_le w.support w.refute with h1 | h1
  · rcases lt_or_le w.refute w.unclear with h2 | h2
    · have hm : max w.support (max w.refute w.unclear) = w.unclear := by
        rw [max_eq_right h2.le, max_eq_right (h1.trans h2).le]
      simp only [label_key, priority_pick, gt_iff_lt, hm,
        if_pos h1, if_pos h2, if_neg (h1.trans h2).ne, if_neg h2.ne]
    · have hm : max w.support (max w.refute w.unclear) = w.refute := by
        rw [max_eq_left h2, max_eq_right h1.le]
      simp only [label_key, priority_pick, gt_iff_lt, hm,
        if_pos h1, if_neg (not_lt.mpr h2), if_neg h1.ne, if_true]
  · rcases lt_or_le w.support w.unclear with h2 | h2
    · have hm : max w.support (max w.refute w.unclear) = w.unclear := by
        rw [max_eq_right (h1.trans h2.le), max_eq_right h2.le]
      simp only [label_key, priority_pick, gt_iff_lt, hm,
        if_neg (not_lt.mpr h1), if_pos h2, if_neg h2.ne,
        if_neg (lt_of_le_of_lt h1 h2).ne]
    · have hm : max w.support (max w.refute w.unclear) = w.support := by
        rw [max_eq_left (max_le h1 h2)]
      simp only [label_key, priority_pick, gt_iff_lt, hm,
        if_neg (not_lt.mpr h1), if_neg (not_lt.mpr h2), if_true]

/-!
## Rounding bounds
-/

theorem roundHalfEven_nonneg (q : ℚ) (h : 0 ≤ q) : 0 ≤ roundHalfEven q := by
  have hf : (0 : ℤ) ≤ ⌊q⌋ := Int.le_floor.mpr (by exact_mod_cast h)
  simp only [roundHalfEven]
  split_ifs <;> omega

theorem roundHalfEven_le (q : ℚ) (n : ℤ) (h : q ≤ n) : roundHalfEven q ≤ n := by
  have hfl : ⌊q⌋ ≤ n := by
    calc ⌊q⌋ ≤ ⌊(n : ℚ)⌋ := Int.floor_le_floor h
    _ = n := Int.floor_intCast n
  have hfl2 : ¬ (q - ⌊q⌋ < 1/2) → ⌊q⌋ + 1 ≤ n := by
    intro hr
    push_neg at hr
    have hq : (⌊q⌋ : ℚ) + 1/2 ≤ q := by linarith
    have : (⌊q⌋ : ℚ) < n := by
      have := le_trans hq h
      linarith
    have : ⌊q⌋ < n := by exact_mod_cast this
    omega
  simp only [roundHalfEven]
  split_ifs with h1 h2 h3
  · exact hfl
  · exact hfl2 h1
  · exact hfl
  · exact hfl2 h1

theorem round3_nonneg (q : ℚ) (h : 0 ≤ q) : 0 ≤ round3 q := by
  have : (0 : ℤ) ≤ roundHalfEven (1000 * q) :=
    roundHalfEven_nonneg _ (by linarith)
  have : (0 : ℚ) ≤ (roundHalfEven (1000 * q) : ℚ) := by exact_mod_cast this
  simp only [round3]
  positivity

theorem round3_le_one (q : ℚ) (h : q ≤ 1) : round3 q ≤ 1 := by
  have h1000 : (1000 : ℚ) * q ≤ (1000 : ℤ) := by push_cast; linarith
  have : roundHalfEven (1000 * q) ≤ 1000 := roundHalfEven_le _ _ h1000
  have hc : (roundHalfEven (1000 * q) : ℚ) ≤ 1000 := by exact_mod_cast this
  rw [round3, div_le_one (by norm_num : (0:ℚ) < 1000)]
  exact hc.trans (by norm_num)

/-!
## Counts partition the fetched records
-/

theorem cnt_sum_eq_length (l : List VerifDoc) :
    cnt l .support + cnt l .refute + cnt l .unclear = l.length := by
  induction l with
  | nil => simp [cnt]
  | cons v rest ih =>
    cases hst : v.stance <;>
      simp [cnt_cons, hst, ← ih] <;> omega

/-!
## Dependence of the verdict on state
-/

theorem wsum_congr (db db' : DB) (l : List VerifDoc) (st : Stance)
    (hrep : ∀ v ∈ l, get_user_rep db v.author_id = get_user_rep db' v.author_id) :
    wsum db l st = wsum db' l st := by
  unfold wsum
  congr 1
  exact List.map_congr_left fun v hv => hrep v (List.mem_of_mem_filter hv)

/-- The verdict depends only on the records `compute_verdict` fetches and
the current reputations of their authors. -/
theorem compute_verdict_congr (db db' : DB) (cid : String)
    (hfetch : fetch_verifs db cid = fetch_verifs db' cid)
    (hrep : ∀ v ∈ fetch_verifs db cid,
      get_user_rep db v.author_id = get_user_rep db' v.author_id) :
    compute_verdict db cid = compute_verdict db' cid := by
  by_cases hemp : fetch_verifs db cid = []
  · rw [compute_verdict, compute_verdict, hemp, ← hfetch, hemp]
    rfl
  · rw [compute_verdict_eq db cid hemp,
      compute_verdict_eq db' cid (hfetch ▸ hemp)]
    have hws : ∀ st, wsum db (fetch_verifs db cid) st = wsum db' (fetch_verifs db' cid) st := by
      intro st
      rw [← hfetch]
      exact wsum_congr db db' _ st hrep
    have hw : stance_weights db (fetch_verifs db cid) =
        stance_weights db' (fetch_verifs db' cid) := by
      simp [stance_weights, hws]
    rw [hw, hfetch]

/-!
## Nonnegative reputations
-/

theorem get_user_rep_nonneg (db : DB) (uid : String)
    (h : ∀ u ∈ db.users, 0 ≤ u.reputation) : 0 ≤ get_user_rep db uid := by
  unfold get_user_rep get_user
  cases hf : db.users.find? (fun u => u.id == uid) with
  | none => norm_num
  | some u => exact h u (List.mem_of_find?_eq_some hf)

theorem wsum_nonneg (db : DB) (l : List VerifDoc) (st : Stance)
    (h : ∀ u ∈ db.users, 0 ≤ u.reputation) : 0 ≤ wsum db l st := by
  apply List.sum_nonneg
  intro x hx
  rcases List.mem_map.mp hx with ⟨v, _, rfl⟩
  exact get_user_rep_nonneg db v.author_id h

/-!
## Reputation updates
-/

theorem inc_reputation_find (users : List UserDoc) (uid : String) (d : ℚ)
    (u : UserDoc) (h : users.find? (fun x => x.id == uid) = some u) :
    (inc_reputation users uid d).find? (fun x => x.id == uid) =
      some { u with reputation := u.reputation + d } := by
  induction users with
  | nil => simp at h
  | cons v rest ih =>
    by_cases hv : v.id == uid
    · rw [List.find?_cons] at h
      simp only [hv] at h
      cases h
      simp [inc_reputation, hv, List.find?_cons]
    · rw [List.find?_cons] at h
      simp only [hv] at h
      simp [inc_reputation, hv, List.find?_cons, ih h]

/-- Unfolding of a successful `add_verification` call: the record is
appended, the verdict of the post-insertion state decides the sign of the
reputation delta, and the inserted document is returned. -/
theorem add_verification_ok (db : DB) (cid : String) (body : VerificationCreate)
    (cu : Option UserDoc) (vid : String) (now : ℕ) (author : String)
    (hclaim : db.claims.find? (fun c => c.id == cid) ≠ none)
    (hau : (∃ w, cu = some w ∧ author = w.id) ∨
           (cu = none ∧ author = body.author_id ∧ get_user db body.author_id ≠ none)) :
    add_verification db cid body cu vid now =
      (let doc : VerifDoc :=
        { id := vid, claim_id := cid, author_id := author, stance := body.stance,
          source_url := body.source_url, explanation := body.explanation, created_at := now }
       let db1 : DB := { db with verifications := db.verifications ++ [doc] }
       let db2 : DB :=
         if body.stance = align_map_get (compute_verdict db1 cid).label then
           { db1 with users := inc_reputation db1.users author (1/10) }
         else
           { db1 with users := inc_reputation db1.users author (-(1/20)) }
       (db2, .ok doc)) := by
  rcases Option.ne_none_iff_exists'.mp hclaim with ⟨c, hc⟩
  unfold add_verification
  rw [hc]
  rcases hau with ⟨w, hcu, hid⟩ | ⟨hcu, hid, hex⟩
  · subst hcu hid
    rfl
  · rcases Option.ne_none_iff_exists'.mp hex with ⟨w, hw⟩
    subst hcu hid
    rw [hw]

/-- Commuting the reputation-delta `if` into the increment argument. -/
theorem ite_inc_users (c : Prop) [Decidable c] (us : List UserDoc)
    (cs : List ClaimDoc) (vs : List VerifDoc) (a : String) (d₁ d₂ : ℚ) :
    (if c then (⟨inc_reputation us a d₁, cs, vs⟩ : DB)
     else ⟨inc_reputation us a d₂, cs, vs⟩) =
      ⟨inc_reputation us a (if c then d₁ else d₂), cs, vs⟩ := by
  split_ifs <;> rfl

/-!
## Concrete states

Small database fixtures used by witnesses and counterexamples below.
-/

/-- A fixed annotation fixture (contents irrelevant to the core). -/
def aiFx : AiResult :=
  { summary := "s", label := "Unclear", confidence := 1, reasoning := "r",
    entities := [], bias_score := 1, stance := "neutral",
    evidence_quality := "medium", temporal_relevance := 1,
    contradiction_flags := [], verification_suggestions := [],
    sources_analysis := [] }

/-- A claim document as `create_claim` stores it (denormalized counts
zero). -/
def mkClaim (cid author : String) (t : ℕ) : ClaimDoc :=
  { id := cid, author_id := author, text := "claim text", link := none,
    media_base64 := none, created_at := t, ai := aiFx,
    support_count := 0, refute_count := 0, unclear_count := 0, confidence := 0 }

def userA2 : UserDoc := { id := "a", username := "alice", reputation := 2 }
def userA1 : UserDoc := { id := "a", username := "alice", reputation := 1 }
def userB1 : UserDoc := { id := "b", username := "bob", reputation := 1 }
def userBneg : UserDoc := { id := "b", username := "bob", reputation := -1 }
def userZ5 : UserDoc := { id := "z", username := "zed", reputation := 5 }

def vSupportA : VerifDoc :=
  { id := "v1", claim_id := "c", author_id := "a", stance := .support,
    source_url := none, explanation := none, created_at := 1 }

def vRefuteB : VerifDoc :=
  { id := "v2", claim_id := "c", author_id := "b", stance := .refute,
    source_url := none, explanation := none, created_at := 2 }

/-- Author with reputation 2 supports, author with reputation 1 refutes
(the worked example of the spec). -/
def c1DB : DB := ⟨[userA2, userB1], [mkClaim "c" "a" 0], [vSupportA, vRefuteB]⟩

/-- Same ledger, but the refuting author's reputation has drifted to -1. -/
def c3DB : DB := ⟨[userA2, userBneg], [mkClaim "c" "a" 0], [vSupportA, vRefuteB]⟩

/-- A claim with no verifications. -/
def emptyDB : DB := ⟨[userA1], [mkClaim "c" "a" 0], []⟩

/-- One stored claim with stale zero counts and one support verification
by a reputation-1 author. -/
def staleDB : DB := ⟨[userA1], [mkClaim "c" "a" 0], [vSupportA]⟩

/-- The `i`-th of a large family of support verifications of claim `"c"`
by the reputation-1 author `"a"`. -/
def capVerif (i : ℕ) : VerifDoc :=
  { id := "v" ++ toString i, claim_id := "c", author_id := "a",
    stance := .support, source_url := none, explanation := none, created_at := i }

/-- 1001 support verifications of one claim: one more than the
`to_list(1000)` cap of `compute_verdict`. -/
def capDB : DB := ⟨[userA1], [mkClaim "c" "a" 0], (List.range 1001).map capVerif⟩

/-- 1000 existing support verifications of claim `"c"`, plus a second user
`"b"` about to submit the 1001st. -/
def c2DB : DB := ⟨[userA1, userB1], [mkClaim "c" "a" 0], (List.range 1000).map capVerif⟩

/-- The verification user `"b"` submits against the full claim. -/
def vNewRefute : VerifDoc :=
  { id := "vnew", claim_id := "c", author_id := "b", stance := .refute,
    source_url := none, explanation := none, created_at := 2000 }

theorem capVerif_filter_claim (n : ℕ) :
    ((List.range n).map capVerif).filter (fun v => v.claim_id == "c") =
      (List.range n).map capVerif := by
  apply List.filter_eq_self.mpr
  intro v hv
  rcases List.mem_map.mp hv with ⟨i, _, rfl⟩
  rfl

theorem capVerif_cnt (n : ℕ) :
    cnt ((List.range n).map capVerif) .support = n ∧
    cnt ((List.range n).map capVerif) .refute = 0 ∧
    cnt ((List.range n).map capVerif) .unclear = 0 := by
  refine ⟨?_, ?_, ?_⟩
  · have : ((List.range n).map capVerif).filter (fun v => v.stance == Stance.support) =
        (List.range n).map capVerif := by
      apply List.filter_eq_self.mpr
      intro v hv
      rcases List.mem_map.mp hv with ⟨i, _, rfl⟩
      rfl
    simp [cnt, this]
  · have : ((List.range n).map capVerif).filter (fun v => v.stance == Stance.refute) = [] := by
      apply List.filter_eq_nil_iff.mpr
      intro v hv
      rcases List.mem_map.mp hv with ⟨i, _, rfl⟩
      simp [capVerif]
    simp [cnt, this]
  · have : ((List.range n).map capVerif).filter (fun v => v.stance == Stance.unclear) = [] := by
      apply List.filter_eq_nil_iff.mpr
      intro v hv
      rcases List.mem_map.mp hv with ⟨i, _, rfl⟩
      simp [capVerif]
    simp [cnt, this]

/-- What `compute_verdict` fetches from the 1001-record state: only the
first 1000 records. -/
theorem capDB_fetch :
    fetch_verifs capDB "c" = (List.range 1000).map capVerif := by
  have hsplit : (List.range 1001).map capVerif =
      (List.range 1000).map capVerif ++ [capVerif 1000] := by
    rw [List.range_succ, List.map_append]
    rfl
  have hlen : ((List.range 1000).map capVerif).length = 1000 := by simp
  calc fetch_verifs capDB "c"
      = (((List.range 1001).map capVerif).filter
          (fun v => v.claim_id == "c")).take 1000 := by
        simp only [fetch_verifs, capDB]
    _ = ((List.range 1001).map capVerif).take 1000 := by rw [capVerif_filter_claim]
    _ = (((List.range 1000).map capVerif) ++ [capVerif 1000]).take 1000 := by rw [hsplit]
    _ = (List.range 1000).map capVerif := List.take_left' hlen

/-- A database identical to `staleDB` as far as claim `"c"`'s verification
records and their authors' reputations are concerned, but with different
stored (stale) claim counts and an extra unrelated user. -/
def staleDB' : DB :=
  ⟨[userA1, userZ5], [{ mkClaim "c" "a" 0 with support_count := 7 }], [vSupportA]⟩

/-- The number of verification records of claim `"c"` in the 1001-record
state. -/
theorem capDB_filter_length :
    (capDB.verifications.filter (fun v => v.claim_id == "c")).length = 1001 := by
  have hv : capDB.verifications = (List.range 1001).map capVerif := by
    simp only [capDB]
  rw [hv, capVerif_filter_claim]
  simp

/-- The verdict counts of the 1001-record state: the cap leaves exactly
1000 contributing records. -/
theorem capDB_verdict_counts :
    (compute_verdict capDB "c").support = 1000 ∧
    (compute_verdict capDB "c").refute = 0 ∧
    (compute_verdict capDB "c").unclear = 0 := by
  have hlen : (fetch_verifs capDB "c").length = 1000 := by
    rw [capDB_fetch]
    simp
  have hne : fetch_verifs capDB "c" ≠ [] := by
    intro hnil
    rw [hnil] at hlen
    simp at hlen
  rcases capVerif_cnt 1000 with ⟨h1, h2, h3⟩
  rw [compute_verdict_eq capDB "c" hne]
  simp only [capDB_fetch]
  exact ⟨h1, h2, h3⟩

/-- **C5**: for every claim whose verification set is empty,
`compute_verdict` returns the terminal verdict with label "Unverified",
confidence 0.0 and all three counts zero. -/
theorem C5_empty_set_unverified (db : DB) (claim_id : String)
    (h : db.verifications.filter (fun v => v.claim_id == claim_id) = []) :
    compute_verdict db claim_id =
      { label := "Unverified", confidence := 0, support := 0, refute := 0, unclear := 0 } :=
  compute_verdict_empty db claim_id h

/-- Witness for C5 at a concrete claim with no verifications. -/
theorem C5_empty_set_unverified_witness :
    compute_verdict emptyDB "c" =
      { label := "Unverified", confidence := 0, support := 0, refute := 0, unclear := 0 } :=
  C5_empty_set_unverified emptyDB "c" (by decide)

/-- **C4**: the winning stance always carries the maximum accumulated
weight, and exact ties are resolved by the fixed priority order
support > refute > unclear (`max` over the insertion-ordered dict keeps
the first maximal key), so the selection — and hence the label of two runs
of `compute_verdict` on the same state — is deterministic. -/
theorem C4_tie_break_priority (w : Weights) :
    label_key w = priority_pick w ∧
    (∀ st, w.get st ≤ w.get (label_key w)) ∧
    (w.support = w.refute → w.unclear ≤ w.support → label_key w = .support) ∧
    (w.support < w.refute → w.unclear = w.refute → label_key w = .refute) := by
  refine ⟨label_key_eq_priority_pick w, label_key_is_max w, ?_, ?_⟩
  · intro h1 h2
    rw [label_key_eq_priority_pick w]
    unfold priority_pick
    have hm : w.support ⊔ (w.refute ⊔ w.unclear) = w.support :=
      max_eq_left (max_le h1.ge h2)
    rw [hm, if_pos rfl]
  · intro h1 h2
    rw [label_key_eq_priority_pick w]
    unfold priority_pick
    have hm : w.support ⊔ (w.refute ⊔ w.unclear) = w.refute := by
      rw [h2, max_self, max_eq_right h1.le]
    rw [hm, if_neg h1.ne, if_pos rfl]

/-- Witness for C4 at the spec's exact-tie example (equal weights 1.0 for
support and refute): the label is support, i.e. "Mostly True". -/
theorem C4_tie_break_priority_witness :
    label_key ⟨1, 1, 0⟩ = .support :=
  (C4_tie_break_priority ⟨1, 1, 0⟩).2.2.1 rfl (by decide)

/-- **C7** (amended): the verdict is a pure function of the records
`compute_verdict` fetches — the first 1000 verification records of the
claim in ledger order — and the current reputations of their authors.
Because of the `to_list(1000)` cap, records beyond the first 1000 do not
contribute (see the counterexample). -/
theorem C7_verdict_pure_function (db db' : DB) (claim_id : String)
    (hfetch : fetch_verifs db claim_id = fetch_verifs db' claim_id)
    (hrep : ∀ v ∈ fetch_verifs db claim_id,
      get_user_rep db v.author_id = get_user_rep db' v.author_id) :
    compute_verdict db claim_id = compute_verdict db' claim_id :=
  compute_verdict_congr db db' claim_id hfetch hrep

/-- Witness for C7: two states agreeing on claim `"c"`'s records and their
authors' reputations, but with different stored claim counts and user
sets, produce the same verdict. -/
theorem C7_verdict_pure_function_witness :
    compute_verdict staleDB "c" = compute_verdict staleDB' "c" :=
  C7_verdict_pure_function staleDB staleDB' "c" (by decide) (by decide)

/-- Counterexample to C7 as stated: in a state with 1001 verification
records for one claim, the support count of the verdict is 1000 — the
1001st record does not contribute to the weights and counts, so the
verdict is a function of a truncated snapshot. -/
theorem C7_counterexample :
    (compute_verdict capDB "c").support = 1000 ∧
    (capDB.verifications.filter (fun v => v.claim_id == "c")).length = 1001 :=
  ⟨capDB_verdict_counts.1, capDB_filter_length⟩

/-- **C8** (amended): the three counts of the verdict sum to the number of
verification records of the claim, capped at 1000 (`to_list(1000)`). -/
theorem C8_counts_sum (db : DB) (claim_id : String) :
    (compute_verdict db claim_id).support + (compute_verdict db claim_id).refute +
        (compute_verdict db claim_id).unclear =
      min ((db.verifications.filter (fun v => v.claim_id == claim_id)).length) 1000 := by
  by_cases h : fetch_verifs db claim_id = []
  · have hfil : db.verifications.filter (fun v => v.claim_id == claim_id) = [] := by
      rcases List.take_eq_nil_iff.mp h with h0 | h0
      · omega
      · exact h0
    rw [compute_verdict_empty db claim_id hfil, hfil]
    rfl
  · rw [compute_verdict_eq db claim_id h]
    show cnt (fetch_verifs db claim_id) .support + cnt (fetch_verifs db claim_id) .refute +
        cnt (fetch_verifs db claim_id) .unclear = _
    rw [cnt_sum_eq_length]
    unfold fetch_verifs
    rw [List.length_take]
    omega

/-- Counterexample to C8 as stated: with 1001 verification records for one
claim, the counts sum to 1000, not to the total number of records. -/
theorem C8_counterexample :
    (compute_verdict capDB "c").support + (compute_verdict capDB "c").refute +
        (compute_verdict capDB "c").unclear = 1000 ∧
    (capDB.verifications.filter (fun v => v.claim_id == "c")).length = 1001 := by
  rcases capDB_verdict_counts with ⟨h1, h2, h3⟩
  rw [h1, h2, h3]
  exact ⟨rfl, capDB_filter_length⟩

theorem compute_verdict_fetch_nil (db : DB) (claim_id : String)
    (h : fetch_verifs db claim_id = []) :
    compute_verdict db claim_id =
      { label := "Unverified", confidence := 0, support := 0, refute := 0, unclear := 0 } := by
  rw [compute_verdict, h]
  rfl

/-- Evaluation of the spec's worked example: a support by a reputation-2
author and a refute by a reputation-1 author yield "Mostly True" with
confidence `round(2/3, 3) = 0.667`. -/
theorem c1DB_verdict :
    compute_verdict c1DB "c" =
      { label := "Mostly True", confidence := 667/1000, support := 1, refute := 1,
        unclear := 0 } := by
  have hfetch : fetch_verifs c1DB "c" = [vSupportA, vRefuteB] := by decide
  have hne : fetch_verifs c1DB "c" ≠ [] := by
    rw [hfetch]
    simp
  have ra : get_user_rep c1DB "a" = 2 := by decide
  have rb : get_user_rep c1DB "b" = 1 := by decide
  have hw : stance_weights c1DB (fetch_verifs c1DB "c") = ⟨2, 1, 0⟩ := by
    rw [hfetch]
    simp [stance_weights, wsum, List.filter_cons, vSupportA, vRefuteB, ra, rb]
  have hk : label_key (⟨2, 1, 0⟩ : Weights) = .support := by norm_num [label_key]
  have htot : total_weight ⟨2, 1, 0⟩ = 3 := by norm_num [total_weight]
  have hr3 : round3 ((2:ℚ) / 3) = 667/1000 := by
    have hfl : ⌊(1000 * ((2:ℚ)/3))⌋ = 666 := by norm_num [Int.floor_eq_iff]
    norm_num [round3, roundHalfEven, hfl]
  have hc1 : cnt (fetch_verifs c1DB "c") Stance.support = 1 := by decide
  have hc2 : cnt (fetch_verifs c1DB "c") Stance.refute = 1 := by decide
  have hc3 : cnt (fetch_verifs c1DB "c") Stance.unclear = 0 := by decide
  rw [compute_verdict_eq c1DB "c" hne, hw, hk, htot]
  simp [Verdict.mk.injEq, label_map, Weights.get, hr3, hc1, hc2, hc3]

/-- **C1**: on a non-empty verification set `compute_verdict` accumulates
per stance a raw count and a reputation-weighted sum (reputation
defaulting to 1.0 for unresolved authors), selects a stance of maximum
accumulated weight, divides its weight by the total weight (defaulted to
1.0 when zero) and rounds to 3 decimals, and maps support/refute/unclear
to "Mostly True"/"Mostly False"/"Unclear"; on the spec's example
(support with reputation 2.0, refute with reputation 1.0) the result is
"Mostly True" with confidence 0.667. -/
theorem C1_verdict_computation (db : DB) (claim_id : String)
    (h : db.verifications.filter (fun v => v.claim_id == claim_id) ≠ []) :
    compute_verdict db claim_id =
      { label := label_map (label_key (stance_weights db (fetch_verifs db claim_id)))
        confidence := round3
          ((stance_weights db (fetch_verifs db claim_id)).get
              (label_key (stance_weights db (fetch_verifs db claim_id))) /
            total_weight (stance_weights db (fetch_verifs db claim_id)))
        support := cnt (fetch_verifs db claim_id) .support
        refute := cnt (fetch_verifs db claim_id) .refute
        unclear := cnt (fetch_verifs db claim_id) .unclear } ∧
    (∀ st, (stance_weights db (fetch_verifs db claim_id)).get st ≤
      (stance_weights db (fetch_verifs db claim_id)).get
        (label_key (stance_weights db (fetch_verifs db claim_id)))) ∧
    (∀ uid, get_user db uid = none → get_user_rep db uid = 1) ∧
    (label_map .support = "Mostly True" ∧ label_map .refute = "Mostly False" ∧
      label_map .unclear = "Unclear") ∧
    compute_verdict c1DB "c" =
      { label := "Mostly True", confidence := 667/1000, support := 1, refute := 1,
        unclear := 0 } := by
  have hne : fetch_verifs db claim_id ≠ [] := by
    unfold fetch_verifs
    intro h0
    rcases List.take_eq_nil_iff.mp h0 with h1 | h1
    · omega
    · exact h h1
  refine ⟨compute_verdict_eq db claim_id hne, label_key_is_max _, ?_, ⟨rfl, rfl, rfl⟩,
    c1DB_verdict⟩
  intro uid hu
  unfold get_user_rep
  rw [hu]

/-- Witness for C1 at the spec's worked example. -/
theorem C1_verdict_computation_witness :
    compute_verdict c1DB "c" =
      { label := "Mostly True", confidence := 667/1000, support := 1, refute := 1,
        unclear := 0 } :=
  (C1_verdict_computation c1DB "c" (by decide)).2.2.2.2

/-- **C3** (amended): when every stored reputation is nonnegative, the
confidence returned by `compute_verdict` lies in `[0, 1]`.  With negative
reputations (which the system can produce) this fails: see the
counterexample. -/
theorem C3_confidence_in_unit_interval (db : DB) (claim_id : String)
    (h : ∀ u ∈ db.users, 0 ≤ u.reputation) :
    0 ≤ (compute_verdict db claim_id).confidence ∧
      (compute_verdict db claim_id).confidence ≤ 1 := by
  by_cases hemp : fetch_verifs db claim_id = []
  · rw [compute_verdict_fetch_nil db claim_id hemp]
    norm_num
  · have hws := wsum_nonneg db (fetch_verifs db claim_id) .support h
    have hwr := wsum_nonneg db (fetch_verifs db claim_id) .refute h
    have hwu := wsum_nonneg db (fetch_verifs db claim_id) .unclear h
    rw [compute_verdict_eq db claim_id hemp]
    set w : Weights := stance_weights db (fetch_verifs db claim_id) with hwdef
    have hs : 0 ≤ w.support := hws
    have hr : 0 ≤ w.refute := hwr
    have hu : 0 ≤ w.unclear := hwu
    have hget : 0 ≤ w.get (label_key w) := by
      cases hk : label_key w <;> simp only [Weights.get] <;> assumption
    have hle : w.get (label_key w) ≤ w.support + w.refute + w.unclear := by
      cases hk : label_key w <;> simp only [Weights.get] <;> linarith
    have hq : 0 ≤ w.get (label_key w) / total_weight w ∧
        w.get (label_key w) / total_weight w ≤ 1 := by
      unfold total_weight
      by_cases ht : w.support + w.refute + w.unclear = 0
      · rw [if_pos ht]
        refine ⟨by simpa using hget, ?_⟩
        rw [div_one]
        calc w.get (label_key w) ≤ w.support + w.refute + w.unclear := hle
          _ = 0 := ht
          _ ≤ 1 := by norm_num
      · rw [if_neg ht]
        have htpos : 0 < w.support + w.refute + w.unclear :=
          lt_of_le_of_ne (by linarith) (Ne.symm ht)
        exact ⟨div_nonneg hget htpos.le, (div_le_one htpos).mpr hle⟩
    exact ⟨round3_nonneg _ hq.1, round3_le_one _ hq.2⟩

/-- Witness for C3 (amended) at the worked example with nonnegative
reputations. -/
theorem C3_confidence_in_unit_interval_witness :
    0 ≤ (compute_verdict c1DB "c").confidence ∧
      (compute_verdict c1DB "c").confidence ≤ 1 :=
  C3_confidence_in_unit_interval c1DB "c" (by decide)

/-- Counterexample to C3 as stated: with a negative reputation (-1.0 on the
refuting author, reachable through repeated penalties), the confidence of
the verdict is 2, outside `[0, 1]`. -/
theorem C3_counterexample :
    (compute_verdict c3DB "c").confidence = 2 ∧
      ¬ ((compute_verdict c3DB "c").confidence ≤ 1) := by
  have h2 : (compute_verdict c3DB "c").confidence = 2 := by
    have hfetch : fetch_verifs c3DB "c" = [vSupportA, vRefuteB] := by decide
    have hne : fetch_verifs c3DB "c" ≠ [] := by
      rw [hfetch]
      simp
    have ra : get_user_rep c3DB "a" = 2 := by decide
    have rb : get_user_rep c3DB "b" = -1 := by decide
    have hw : stance_weights c3DB (fetch_verifs c3DB "c") = ⟨2, -1, 0⟩ := by
      rw [hfetch]
      simp [stance_weights, wsum, List.filter_cons, vSupportA, vRefuteB, ra, rb]
    have hk : label_key (⟨2, -1, 0⟩ : Weights) = .support := by norm_num [label_key]
    have htot : total_weight ⟨2, -1, 0⟩ = 1 := by norm_num [total_weight]
    have hr3 : round3 (2:ℚ) = 2 := by
      have hfl : ⌊(1000 * (2:ℚ))⌋ = 2000 := by norm_num [Int.floor_eq_iff]
      norm_num [round3, roundHalfEven, hfl]
    rw [compute_verdict_eq c3DB "c" hne, hw, hk, htot]
    simp [Weights.get, hr3]
  refine ⟨h2, ?_⟩
  rw [h2]
  norm_num

def noClaimDB : DB := ⟨[userA1], [], []⟩

/-- **C2** (amended): a successful `add_verification` appends exactly the
new record, recomputes the verdict on the post-insertion state, and
updates the author's stored reputation by exactly +0.1 when the new
stance matches the stance the verdict label maps back to and by exactly
-0.05 otherwise, unconditionally and with no floor or ceiling clamp; the
just-added record is part of the records that feedback recomputation
reads whenever the claim then has at most 1000 verification records
(beyond that the `to_list(1000)` cap can exclude it — see the
counterexample). -/
theorem C2_reputation_feedback (db : DB) (claim_id : String)
    (body : VerificationCreate) (cu : Option UserDoc) (vid : String) (now : ℕ)
    (author : String) (u : UserDoc)
    (hclaim : db.claims.find? (fun c => c.id == claim_id) ≠ none)
    (hau : (∃ w, cu = some w ∧ author = w.id) ∨
           (cu = none ∧ author = body.author_id ∧ get_user db body.author_id ≠ none))
    (hu : db.users.find? (fun x => x.id == author) = some u) :
    let doc : VerifDoc :=
      { id := vid, claim_id := claim_id, author_id := author, stance := body.stance,
        source_url := body.source_url, explanation := body.explanation, created_at := now }
    let db1 : DB := { db with verifications := db.verifications ++ [doc] }
    let delta : ℚ :=
      if body.stance = align_map_get (compute_verdict db1 claim_id).label then 1/10 else -(1/20)
    add_verification db claim_id body cu vid now =
      ({ db1 with users := inc_reputation db1.users author delta }, .ok doc) ∧
    (add_verification db claim_id body cu vid now).1.users.find? (fun x => x.id == author) =
      some { u with reputation := u.reputation + delta } ∧
    ((db1.verifications.filter (fun v => v.claim_id == claim_id)).length ≤ 1000 →
      doc ∈ fetch_verifs db1 claim_id) := by
  intro doc db1 delta
  have hok := add_verification_ok db claim_id body cu vid now author hclaim hau
  simp only [] at hok
  have hmain : add_verification db claim_id body cu vid now =
      ({ db1 with users := inc_reputation db1.users author delta }, .ok doc) := by
    rw [hok, ite_inc_users]
  refine ⟨hmain, ?_, ?_⟩
  · rw [hmain]
    exact inc_reputation_find db.users author delta u hu
  · intro hlen
    unfold fetch_verifs
    rw [List.take_of_length_le hlen]
    have hmem : doc ∈ db1.verifications := List.mem_append_right _ (List.mem_singleton_self doc)
    exact List.mem_filter.mpr ⟨hmem, by simp⟩

/-- Witness for C2 (amended) at a concrete matching submission: user "a"
(reputation 1) supports a previously unverified claim; the post-insertion
verdict maps back to support, so the stored reputation becomes 1 + 0.1. -/
theorem C2_reputation_feedback_witness :
    let doc : VerifDoc :=
      { id := "v9", claim_id := "c", author_id := "a", stance := Stance.support,
        source_url := none, explanation := none, created_at := 9 }
    let db1 : DB := { emptyDB with verifications := emptyDB.verifications ++ [doc] }
    let delta : ℚ :=
      if (Stance.support : Stance) = align_map_get (compute_verdict db1 "c").label
      then 1/10 else -(1/20)
    add_verification emptyDB "c" ⟨"a", .support, none, none⟩ none "v9" 9 =
      ({ db1 with users := inc_reputation db1.users "a" delta }, .ok doc) ∧
    (add_verification emptyDB "c" ⟨"a", .support, none, none⟩ none "v9" 9).1.users.find?
        (fun x => x.id == "a") =
      some { userA1 with reputation := userA1.reputation + delta } ∧
    ((db1.verifications.filter (fun v => v.claim_id == "c")).length ≤ 1000 →
      doc ∈ fetch_verifs db1 "c") :=
  C2_reputation_feedback emptyDB "c" ⟨"a", .support, none, none⟩ none "v9" 9 "a" userA1
    (by decide) (.inr ⟨rfl, rfl, by decide⟩) (by decide)

/-- Counterexample to C2 as stated: with 1000 existing verification
records for the claim, the just-inserted 1001st verification (a refute by
user "b") is absent from the records the feedback recomputation reads —
the post-insertion verdict it is judged against has refute count 0, so
the just-added verification is not included in its own feedback
evaluation. -/
theorem C2_counterexample :
    (add_verification c2DB "c" ⟨"b", .refute, none, none⟩ none "vnew" 2000).1.verifications =
      c2DB.verifications ++ [vNewRefute] ∧
    (compute_verdict { c2DB with verifications := c2DB.verifications ++ [vNewRefute] }
        "c").refute = 0 := by
  constructor
  · have hok := add_verification_ok c2DB "c" ⟨"b", .refute, none, none⟩ none "vnew" 2000 "b"
      (by decide) (Or.inr ⟨rfl, rfl, by decide⟩)
    simp only [] at hok
    rw [hok, ite_inc_users]
    rfl
  · have hfil : ({ c2DB with verifications := c2DB.verifications ++ [vNewRefute] } : DB).verifications.filter
        (fun v => v.claim_id == "c") = (List.range 1000).map capVerif ++ [vNewRefute] := by
      show (c2DB.verifications ++ [vNewRefute]).filter _ = _
      rw [List.filter_append]
      have h1 : c2DB.verifications = (List.range 1000).map capVerif := by
        simp only [c2DB]
      rw [h1, capVerif_filter_claim]
      rfl
    have hfetch : fetch_verifs
        { c2DB with verifications := c2DB.verifications ++ [vNewRefute] } "c" =
        (List.range 1000).map capVerif := by
      unfold fetch_verifs
      rw [hfil]
      exact List.take_left' (by simp)
    have hne : fetch_verifs
        { c2DB with verifications := c2DB.verifications ++ [vNewRefute] } "c" ≠ [] := by
      rw [hfetch]
      intro hnil
      have := congrArg List.length hnil
      simp at this
    rw [compute_verdict_eq _ "c" hne]
    simp only [hfetch]
    exact (capVerif_cnt 1000).2.1

/-- **C6**: `add_verification` rejects an unknown claim id, and — on the
unauthenticated path — an unknown author id, in both cases before any
write: the returned state is exactly the input state (no partial insert,
no reputation update). -/
theorem C6_validation_rejects (db : DB) (claim_id : String)
    (body : VerificationCreate) (cu : Option UserDoc) (vid : String) (now : ℕ) :
    (db.claims.find? (fun c => c.id == claim_id) = none →
      add_verification db claim_id body cu vid now =
        (db, .error (.notFound "Claim not found"))) ∧
    (db.claims.find? (fun c => c.id == claim_id) ≠ none → cu = none →
      get_user db body.author_id = none →
      add_verification db claim_id body cu vid now =
        (db, .error (.badRequest "Invalid author_id"))) := by
  constructor
  · intro hc
    unfold add_verification
    rw [hc]
  · intro hc hcu hup
    rcases Option.ne_none_iff_exists'.mp hc with ⟨c, hcs⟩
    subst hcu
    unfold add_verification
    rw [hcs, hup]

/-- Witness for C6: an unknown claim id and an unknown author id are both
rejected with the database unchanged. -/
theorem C6_validation_rejects_witness :
    add_verification noClaimDB "c" ⟨"a", .support, none, none⟩ none "v" 0 =
      (noClaimDB, .error (.notFound "Claim not found")) ∧
    add_verification emptyDB "c" ⟨"ghost", .support, none, none⟩ none "v" 0 =
      (emptyDB, .error (.badRequest "Invalid author_id")) :=
  ⟨(C6_validation_rejects noClaimDB "c" ⟨"a", .support, none, none⟩ none "v" 0).1 (by decide),
   (C6_validation_rejects emptyDB "c" ⟨"ghost", .support, none, none⟩ none "v" 0).2
     (by decide) rfl (by decide)⟩

/-- **C9** (amended): `list_claims` overwrites the denormalized fields of
every returned claim with freshly computed verdict values, and the
`verdict` object of the claim-detail response is freshly computed; the
claim document embedded in the claim-detail response, however, is
returned as stored (see the counterexample). -/
theorem C9_fresh_verdicts_on_read (db : DB) :
    (∀ c ∈ list_claims db,
      c.support_count = (compute_verdict db c.id).support ∧
      c.refute_count = (compute_verdict db c.id).refute ∧
      c.unclear_count = (compute_verdict db c.id).unclear ∧
      c.confidence = (compute_verdict db c.id).confidence) ∧
    (∀ claim_id d, get_claim db claim_id = .ok d →
      d.verdict = compute_verdict db claim_id) := by
  constructor
  · intro c hc
    simp only [list_claims] at hc
    rcases List.mem_map.mp hc with ⟨c₀, _, rfl⟩
    exact ⟨rfl, rfl, rfl, rfl⟩
  · intro cid d hd
    unfold get_claim at hd
    cases hcs : db.claims.find? (fun c => c.id == cid) with
    | none => rw [hcs] at hd; cases hd
    | some c =>
      rw [hcs] at hd
      cases hd
      rfl

/-- Witness for C9 (amended) at a concrete state. -/
theorem C9_fresh_verdicts_on_read_witness :
    ((mkClaim "c" "a" 0).support_count = (compute_verdict emptyDB "c").support ∧
     (mkClaim "c" "a" 0).refute_count = (compute_verdict emptyDB "c").refute ∧
     (mkClaim "c" "a" 0).unclear_count = (compute_verdict emptyDB "c").unclear ∧
     (mkClaim "c" "a" 0).confidence = (compute_verdict emptyDB "c").confidence) ∧
    (⟨mkClaim "c" "a" 0, [],
      { label := "Unverified", confidence := 0, support := 0, refute := 0,
        unclear := 0 }⟩ : ClaimDetail).verdict = compute_verdict emptyDB "c" :=
  ⟨(C9_fresh_verdicts_on_read emptyDB).1 (mkClaim "c" "a" 0) (by decide),
   (C9_fresh_verdicts_on_read emptyDB).2 "c" _ (by rfl)⟩

/-- Counterexample to C9 as stated: on the claim-detail endpoint the
embedded claim document still carries the stale stored support count 0
while the freshly computed verdict alongside it shows 1 support — the
stale persisted copy is user-visible. -/
theorem C9_counterexample :
    (get_claim staleDB "c").toOption.map
      (fun d => (d.claim.support_count, d.verdict.support)) = some (0, 1) := by
  have hfind : staleDB.claims.find? (fun c => c.id == "c") = some (mkClaim "c" "a" 0) := by
    decide
  have hne : fetch_verifs staleDB "c" ≠ [] := by decide
  have hsup : (compute_verdict staleDB "c").support = 1 := by
    rw [compute_verdict_eq staleDB "c" hne]
    show cnt (fetch_verifs staleDB "c") Stance.support = 1
    decide
  unfold get_claim
  rw [hfind]
  show some ((mkClaim "c" "a" 0).support_count, (compute_verdict staleDB "c").support) =
    some (0, 1)
  rw [hsup]
  rfl

/-- **C10**: on the authenticated path the request-body `author_id` is
ignored entirely — the handler's result does not depend on it, the stored
record carries the authenticated user's id, and no existence check is run
on the supplied value (both for `add_verification` and `create_claim`). -/
theorem C10_authenticated_author (db : DB) (claim_id : String) (u : UserDoc)
    (st : Stance) (src expl : Option String) (vid : String) (now : ℕ)
    (a₁ a₂ : String) (text : String) (link mb : Option String) (ccid : String)
    (ai : AiResult) :
    (add_verification db claim_id ⟨a₁, st, src, expl⟩ (some u) vid now =
      add_verification db claim_id ⟨a₂, st, src, expl⟩ (some u) vid now) ∧
    (db.claims.find? (fun c => c.id == claim_id) ≠ none →
      ((add_verification db claim_id ⟨a₁, st, src, expl⟩ (some u) vid now).2).toOption.map
          VerifDoc.author_id = some u.id) ∧
    (create_claim db ⟨a₁, text, link, mb⟩ (some u) ccid now ai =
      create_claim db ⟨a₂, text, link, mb⟩ (some u) ccid now ai) ∧
    ((create_claim db ⟨a₁, text, link, mb⟩ (some u) ccid now ai).2).toOption.map
        ClaimDoc.author_id = some u.id := by
  refine ⟨?_, ?_, rfl, rfl⟩
  · unfold add_verification
    cases hc : db.claims.find? (fun c => c.id == claim_id) with
    | none => rfl
    | some c => rfl
  · intro hc
    rcases Option.ne_none_iff_exists'.mp hc with ⟨c, hcs⟩
    unfold add_verification
    rw [hcs]
    rfl

/-- Witness for C10: an authenticated submission with an unknown (ghost)
body author id succeeds and is stored under the authenticated user's
id. -/
theorem C10_authenticated_author_witness :
    ((add_verification emptyDB "c" ⟨"ghost", .support, none, none⟩ (some userB1)
        "v" 0).2).toOption.map VerifDoc.author_id = some userB1.id :=
  (C10_authenticated_author emptyDB "c" userB1 .support none none "v" 0 "ghost" "g2"
    "t" none none "cc" aiFx).2.1 (by decide)

end PeerFact
